import Mathlib

/-!
Verification of the credit-pathway admin dashboard's aggregation layer.

The TypeScript services are shallowly embedded: every definition below is a
direct translation of a function from the repository (the source file and
function are named in each doc comment).  JavaScript `Date` values are modeled
in the executing machine's local time zone, exactly as the source computes
them: a civil day number (days since 1970-01-01, local) plus the milliseconds
elapsed within that day.  Firestore `Timestamp`s are converted by the source to
`Date` before every comparison, so they use the same representation.
-/

namespace CreditPathway

/-- Milliseconds in one civil day. -/
def msPerDay : Int := 86400000

/-- A JavaScript `Date`, viewed in local time: `days` counts civil days since
1970-01-01 and `ms` is the time of day in milliseconds. -/
structure JsDate where
  days : Int
  ms : Int
deriving Repr, DecidableEq

/-- Civil-calendar day count since 1970-01-01 of (year, month 1-12, day),
following the standard era/year-of-era decomposition of the proleptic
Gregorian calendar (the arithmetic JavaScript's `Date` uses for local
calendar fields). -/
def daysFromCivil (y m d : Int) : Int :=
  let yAdj := if m ≤ 2 then y - 1 else y
  let era := yAdj.fdiv 400
  let yoe := yAdj - era * 400
  let mp := if m > 2 then m - 3 else m + 9
  let doy := (153 * mp + 2).fdiv 5 + d - 1
  let doe := yoe * 365 + yoe.fdiv 4 - yoe.fdiv 100 + doy
  era * 146097 + doe - 719468

/-- Inverse of `daysFromCivil`: (year, month 1-12, day) of a civil day count. -/
def civilFromDays (z0 : Int) : Int × Int × Int :=
  let z := z0 + 719468
  let era := z.fdiv 146097
  let doe := z - era * 146097
  let yoe := (doe - doe.fdiv 1460 + doe.fdiv 36524 - doe.fdiv 146096).fdiv 365
  let y := yoe + era * 400
  let doy := doe - (365 * yoe + yoe.fdiv 4 - yoe.fdiv 100)
  let mp := (5 * doy + 2).fdiv 153
  let d := doy - (153 * mp + 2).fdiv 5 + 1
  let m := if mp < 10 then mp + 3 else mp - 9
  (if m ≤ 2 then y + 1 else y, m, d)

/-- JS `date.getFullYear()` (local). -/
def JsDate.getFullYear (t : JsDate) : Int := (civilFromDays t.days).1

/-- JS `date.getMonth()` (local, 0-based). -/
def JsDate.getMonth (t : JsDate) : Int := (civilFromDays t.days).2.1 - 1

/-- JS `date.getDate()` (local day of month, 1-based). -/
def JsDate.getDate (t : JsDate) : Int := (civilFromDays t.days).2.2

/-- JS `date.setHours(h, mi, s, ms)` (local), normalizing any overflow of the
time of day into the day count, as JavaScript does. -/
def JsDate.setHours (t : JsDate) (h mi s ms : Int) : JsDate :=
  let tot := h * 3600000 + mi * 60000 + s * 1000 + ms
  ⟨t.days + tot.fdiv msPerDay, tot.fmod msPerDay⟩

/-- JS `date.setDate(d)` (local): keeps the time of day and moves to day `d`
of the current month, with JavaScript's rollover semantics for out-of-range
`d` (day `d` is `d - 1` days after the first of the month). -/
def JsDate.setDate (t : JsDate) (d : Int) : JsDate :=
  let c := civilFromDays t.days
  ⟨daysFromCivil c.1 c.2.1 1 + (d - 1), t.ms⟩

/-- JS `date.setMonth(mo, d)` (local, `mo` 0-based): keeps the time of day,
normalizing month overflow into the year and day overflow into the month. -/
def JsDate.setMonth (t : JsDate) (mo d : Int) : JsDate :=
  let c := civilFromDays t.days
  ⟨daysFromCivil (c.1 + mo.fdiv 12) (mo.fmod 12 + 1) 1 + (d - 1), t.ms⟩

/-- JS `date.setFullYear(y, mo, d)` (local, `mo` 0-based). -/
def JsDate.setFullYear (t : JsDate) (y mo d : Int) : JsDate :=
  ⟨daysFromCivil (y + mo.fdiv 12) (mo.fmod 12 + 1) 1 + (d - 1), t.ms⟩

/-- JS `date.getTime()` in the local-civil representation; the source only
ever compares timestamps with each other, and this map is monotone in the
(days, ms) ordering, so `<`/`<=` comparisons of the source are `toMillis`
comparisons here. -/
def JsDate.toMillis (t : JsDate) : Int := t.days * msPerDay + t.ms

/-- The `DateRange` union type of `DashboardPage.tsx`. -/
inductive DateRange
  | last_7_days
  | last_30_days
  | this_month
  | this_quarter
  | all_time
deriving Repr, DecidableEq

/-- The `AnalyticsRange` union type of `AnalyticsPage.tsx`. -/
inductive AnalyticsRange
  | last_7_days
  | last_30_days
  | this_month
  | this_quarter
  | custom
deriving Repr, DecidableEq

/-- `getDateRange` of `src/services/supportTicketsService.ts` (lines 37-67):
returns `{start: null, end: null}` — modeled as `none` — for `all_time`,
otherwise end-of-today and the computed start day at midnight.  `now` is the
value of `new Date()`. -/
def supportTickets.getDateRange (now : JsDate) (range : DateRange) :
    Option (JsDate × JsDate) :=
  if range = DateRange.all_time then none
  else
    let e := now.setHours 23 59 59 999
    let s := now
    let s :=
      match range with
      | .last_7_days => s.setDate (s.getDate - 7)
      | .last_30_days => s.setDate (s.getDate - 30)
      | .this_month => (s.setDate 1).setHours 0 0 0 0
      | .this_quarter =>
        let quarter := s.getMonth.fdiv 3
        (s.setMonth (quarter * 3) 1).setHours 0 0 0 0
      | .all_time => s
    some (s.setHours 0 0 0 0, e)

/-- `getDateRange` of `src/services/disputesService.ts` (lines 30-60):
returns `null` — modeled as `none` — for `all_time`. -/
def disputesService.getDateRange (now : JsDate) (range : DateRange) :
    Option (JsDate × JsDate) :=
  if range = DateRange.all_time then none
  else
    let e := now.setHours 23 59 59 999
    let s := now
    let s :=
      match range with
      | .last_7_days => s.setDate (s.getDate - 7)
      | .last_30_days => s.setDate (s.getDate - 30)
      | .this_month => (s.setDate 1).setHours 0 0 0 0
      | .this_quarter =>
        let quarter := s.getMonth.fdiv 3
        (s.setMonth (quarter * 3) 1).setHours 0 0 0 0
      | .all_time => s
    some (s.setHours 0 0 0 0, e)

/-- `getDateRange` of `src/services/userJourneyService.ts` (lines 177-208):
identical shape to the disputes-service resolver. -/
def userJourney.getDateRange (now : JsDate) (range : DateRange) :
    Option (JsDate × JsDate) :=
  if range = DateRange.all_time then none
  else
    let e := now.setHours 23 59 59 999
    let s := now
    let s :=
      match range with
      | .last_7_days => s.setDate (s.getDate - 7)
      | .last_30_days => s.setDate (s.getDate - 30)
      | .this_month => (s.setDate 1).setHours 0 0 0 0
      | .this_quarter =>
        let quarter := s.getMonth.fdiv 3
        (s.setMonth (quarter * 3) 1).setHours 0 0 0 0
      | .all_time => s
    some (s.setHours 0 0 0 0, e)

/-- `getDateRange` of `src/services/mailingService.ts` (lines 33-62):
returns `null` — modeled as `none` — for `all_time`, otherwise the same
switch and trailing `setHours(0, 0, 0, 0)` as the disputes-service
resolver. -/
def mailingService.getDateRange (now : JsDate) (range : DateRange) :
    Option (JsDate × JsDate) :=
  if range = DateRange.all_time then none
  else
    let e := now.setHours 23 59 59 999
    let s := now
    let s :=
      match range with
      | .last_7_days => s.setDate (s.getDate - 7)
      | .last_30_days => s.setDate (s.getDate - 30)
      | .this_month => (s.setDate 1).setHours 0 0 0 0
      | .this_quarter =>
        let quarter := s.getMonth.fdiv 3
        (s.setMonth (quarter * 3) 1).setHours 0 0 0 0
      | .all_time => s
    some (s.setHours 0 0 0 0, e)

/-- `getDateRange` of `src/services/supportService.ts` (lines 37-66):
returns `null` — modeled as `none` — for `all_time`, otherwise the same
switch and trailing `setHours(0, 0, 0, 0)` as the disputes-service
resolver. -/
def supportService.getDateRange (now : JsDate) (range : DateRange) :
    Option (JsDate × JsDate) :=
  if range = DateRange.all_time then none
  else
    let e := now.setHours 23 59 59 999
    let s := now
    let s :=
      match range with
      | .last_7_days => s.setDate (s.getDate - 7)
      | .last_30_days => s.setDate (s.getDate - 30)
      | .this_month => (s.setDate 1).setHours 0 0 0 0
      | .this_quarter =>
        let quarter := s.getMonth.fdiv 3
        (s.setMonth (quarter * 3) 1).setHours 0 0 0 0
      | .all_time => s
    some (s.setHours 0 0 0 0, e)

/-- `getDateRange` of the dashboard service (`dashboardService.ts`, lines
50-83): never returns null; `all_time` is mapped to a start of
January 1, 2000, 00:00:00.000 local time.  The trailing `if` reproduces the
source's `if (range !== "all_time" && range !== "this_month" &&
range !== "this_quarter") start.setHours(0,0,0,0)`. -/
def dashboard.getDateRange (now : JsDate) (range : DateRange) : JsDate × JsDate :=
  let e := now.setHours 23 59 59 999
  let s := now
  let s :=
    match range with
    | .last_7_days => s.setDate (s.getDate - 7)
    | .last_30_days => s.setDate (s.getDate - 30)
    | .this_month => (s.setDate 1).setHours 0 0 0 0
    | .this_quarter =>
      let quarter := s.getMonth.fdiv 3
      (s.setMonth (quarter * 3) 1).setHours 0 0 0 0
    | .all_time => (s.setFullYear 2000 0 1).setHours 0 0 0 0
  let s :=
    if range ≠ DateRange.all_time ∧ range ≠ DateRange.this_month ∧
        range ≠ DateRange.this_quarter then
      s.setHours 0 0 0 0
    else s
  (s, e)

/-- `calculateDateRange` of the analytics service (lines 41-87): handles a
`custom` range when both custom dates are supplied (the source receives them
as strings and builds `Date`s; they are modeled as already-parsed dates), and
otherwise the bounded ranges, with `custom` falling back to the last 7 days. -/
def analytics.calculateDateRange (now : JsDate) (range : AnalyticsRange)
    (customStartDate customEndDate : Option JsDate) : JsDate × JsDate :=
  if range = AnalyticsRange.custom ∧ customStartDate.isSome ∧
      customEndDate.isSome then
    ((customStartDate.getD ⟨0, 0⟩).setHours 0 0 0 0,
     (customEndDate.getD ⟨0, 0⟩).setHours 23 59 59 999)
  else
    let e := now.setHours 23 59 59 999
    let s := now
    let s :=
      match range with
      | .last_7_days => s.setDate (s.getDate - 7)
      | .last_30_days => s.setDate (s.getDate - 30)
      | .this_month => (s.setDate 1).setHours 0 0 0 0
      | .this_quarter =>
        let quarter := s.getMonth.fdiv 3
        (s.setMonth (quarter * 3) 1).setHours 0 0 0 0
      | .custom => s.setDate (s.getDate - 7)
    (s.setHours 0 0 0 0, e)

theorem JsDate.setHours_zero (t : JsDate) : t.setHours 0 0 0 0 = ⟨t.days, 0⟩ := by
  simp [JsDate.setHours, msPerDay, Int.zero_fdiv, Int.zero_fmod]

theorem endOfDay_fdiv : (86399999 : Int).fdiv 86400000 = 0 := by decide

theorem endOfDay_fmod : (86399999 : Int).fmod 86400000 = 86399999 := by decide

theorem JsDate.setHours_endOfDay (t : JsDate) :
    t.setHours 23 59 59 999 = ⟨t.days, 86399999⟩ := by
  have h : (23 * 3600000 + 59 * 60000 + 59 * 1000 + 999 : Int) = 86399999 := by norm_num
  simp [JsDate.setHours, msPerDay, h, endOfDay_fdiv, endOfDay_fmod]

/-- A resolved range is "clamped" when its start sits at 00:00:00.000 local
time of some day and its end is the current day at 23:59:59.999 local time. -/
def clampedRange (now : JsDate) (p : JsDate × JsDate) : Prop :=
  p.1.ms = 0 ∧ p.2.days = now.days ∧ p.2.ms = 86399999

/-- C4: for every date-range enum except `custom`/`all_time`, each service's
resolver returns an end equal to "now" clamped to 23:59:59.999 local time of
the current day and a start at 00:00:00.000 local time of the computed start
day — in every one of the repository's resolvers: support-tickets, disputes,
user-journey, mailing, support, dashboard and analytics. -/
theorem dateRange_resolvers_clamped (now : JsDate) (r : DateRange)
    (ar : AnalyticsRange) (cs ce : Option JsDate)
    (hr : r ≠ DateRange.all_time) (har : ar ≠ AnalyticsRange.custom) :
    (∃ p, supportTickets.getDateRange now r = some p ∧ clampedRange now p) ∧
    (∃ p, disputesService.getDateRange now r = some p ∧ clampedRange now p) ∧
    (∃ p, userJourney.getDateRange now r = some p ∧ clampedRange now p) ∧
    (∃ p, mailingService.getDateRange now r = some p ∧ clampedRange now p) ∧
    (∃ p, supportService.getDateRange now r = some p ∧ clampedRange now p) ∧
    clampedRange now (dashboard.getDateRange now r) ∧
    clampedRange now (analytics.calculateDateRange now ar cs ce) := by
  cases r <;> cases ar <;>
    simp_all [supportTickets.getDateRange, disputesService.getDateRange,
      userJourney.getDateRange, mailingService.getDateRange,
      supportService.getDateRange, dashboard.getDateRange,
      analytics.calculateDateRange, clampedRange, JsDate.setHours_zero,
      JsDate.setHours_endOfDay]

/-- Witness for `dateRange_resolvers_clamped` at a concrete "now"
(2026-10-11, 12:00 local) and concrete ranges. -/
theorem dateRange_resolvers_clamped_witness :
    (∃ p, supportTickets.getDateRange ⟨20737, 43200000⟩ DateRange.last_7_days =
        some p ∧ clampedRange ⟨20737, 43200000⟩ p) ∧
    (∃ p, disputesService.getDateRange ⟨20737, 43200000⟩ DateRange.last_7_days =
        some p ∧ clampedRange ⟨20737, 43200000⟩ p) ∧
    (∃ p, userJourney.getDateRange ⟨20737, 43200000⟩ DateRange.last_7_days =
        some p ∧ clampedRange ⟨20737, 43200000⟩ p) ∧
    (∃ p, mailingService.getDateRange ⟨20737, 43200000⟩ DateRange.last_7_days =
        some p ∧ clampedRange ⟨20737, 43200000⟩ p) ∧
    (∃ p, supportService.getDateRange ⟨20737, 43200000⟩ DateRange.last_7_days =
        some p ∧ clampedRange ⟨20737, 43200000⟩ p) ∧
    clampedRange ⟨20737, 43200000⟩
      (dashboard.getDateRange ⟨20737, 43200000⟩ DateRange.last_7_days) ∧
    clampedRange ⟨20737, 43200000⟩
      (analytics.calculateDateRange ⟨20737, 43200000⟩ AnalyticsRange.this_quarter
        none none) :=
  dateRange_resolvers_clamped ⟨20737, 43200000⟩ DateRange.last_7_days
    AnalyticsRange.this_quarter none none (by decide) (by decide)

/-- JavaScript `a || b` for object-valued (hence truthy-when-present)
fields such as Firestore timestamps, arrays and maps. -/
def jsOr {α} (a b : Option α) : Option α :=
  match a with
  | some x => some x
  | none => b

/-- A letter entry of a user document's `letters`/`generatedLetters` array;
only the fields read by the embedded functions are modeled. -/
structure LetterDoc where
  createdAt : Option JsDate
  generatedAt : Option JsDate
deriving Repr, DecidableEq

/-- An element of `creditReportAnalysis.disputeCandidates`; only the fields
read by the embedded functions are modeled. -/
structure DisputeDoc where
  status : Option String
deriving Repr, DecidableEq

/-- The `creditReportAnalysis` map of a user document. -/
structure CreditReportAnalysis where
  disputeCandidates : Option (List DisputeDoc)
deriving Repr, DecidableEq

/-- A `users` collection document; only the fields read by the embedded
functions are modeled.  Absent fields are `none`. -/
structure UserDoc where
  name : Option String
  email : Option String
  membershipTier : Option String
  tier : Option String
  membership : Option String
  letters : Option (List LetterDoc)
  generatedLetters : Option (List LetterDoc)
  creditReportAnalysis : Option CreditReportAnalysis
  documentsCompleted : Option Bool
  creditReportUrl : Option String
  updatedAt : Option JsDate
  createdAt : Option JsDate
deriving Repr, DecidableEq

/-- A user document with every field absent. -/
def emptyUser : UserDoc :=
  ⟨none, none, none, none, none, none, none, none, none, none, none, none⟩

/-- A `supportThreads` collection document; only the fields read by the date
filter of `getSupportTickets` are modeled. -/
structure ThreadDoc where
  lastMessageAt : Option JsDate
  createdAt : Option JsDate
deriving Repr, DecidableEq

/-- The date-filtering stage of `getSupportTickets`
(`supportTicketsService.ts`, lines 217-253): under a bounded range a thread
is kept when its `lastMessageAt` (falling back to `createdAt`) lies inside
`[start, end]` and skipped when it has no timestamp; under `all_time` (null
start and end) the filter block is skipped and no thread is excluded.  The
subsequent mapping to tickets and sorting only reshape and reorder the kept
threads. -/
def supportTickets.filterThreads (now : JsDate) (range : DateRange)
    (threads : List ThreadDoc) : List ThreadDoc :=
  match supportTickets.getDateRange now range with
  | some (s, e) =>
    threads.filter fun t =>
      match jsOr t.lastMessageAt t.createdAt with
      | some d =>
        if d.toMillis < s.toMillis ∨ e.toMillis < d.toMillis then false else true
      | none => false
  | none => threads

/-- The per-user in-range test of `getActiveUsers`'s in-memory fallback scan
(`dashboardService.ts`, lines 180-191): a user is active when `updatedAt`
(falling back to `createdAt`) lies within `[startDate, endDate]`. -/
def dashboard.activeInRange (s e : JsDate) (u : UserDoc) : Bool :=
  match jsOr u.updatedAt u.createdAt with
  | some d => decide (s.toMillis ≤ d.toMillis) && decide (d.toMillis ≤ e.toMillis)
  | none => false

/-- The fallback full-scan count of `getActiveUsers`. -/
def dashboard.activeUsersFallbackCount (s e : JsDate) (users : List UserDoc) :
    Nat :=
  (users.filter (dashboard.activeInRange s e)).length

/-- C1: the `all_time` conventions differ by service exactly as documented —
`supportTicketsService.getDateRange` returns a null range and
`getSupportTickets` then excludes no thread that has a `lastMessageAt` or
`createdAt`, while `dashboardService.getDateRange` maps `all_time` to a start
of January 1, 2000, 00:00:00.000 local time (civil day 10957), so the
dashboard's active-user scan rejects any activity timestamped before the
year 2000. -/
theorem allTime_convention_mismatch (now : JsDate) :
    supportTickets.getDateRange now DateRange.all_time = none ∧
    (∀ (threads : List ThreadDoc) (t : ThreadDoc), t ∈ threads →
      (t.lastMessageAt.isSome ∨ t.createdAt.isSome) →
      t ∈ supportTickets.filterThreads now DateRange.all_time threads) ∧
    (dashboard.getDateRange now DateRange.all_time).1 =
      ⟨daysFromCivil 2000 1 1, 0⟩ ∧
    daysFromCivil 2000 1 1 = 10957 ∧
    (∀ (u : UserDoc) (d : JsDate), jsOr u.updatedAt u.createdAt = some d →
      d.toMillis < JsDate.toMillis ⟨daysFromCivil 2000 1 1, 0⟩ →
      dashboard.activeInRange (dashboard.getDateRange now DateRange.all_time).1
        (dashboard.getDateRange now DateRange.all_time).2 u = false) := by
  have h0 : (0 : Int).fdiv 12 = 0 := by decide
  have h1 : (0 : Int).fmod 12 = 0 := by decide
  have hstart : (dashboard.getDateRange now DateRange.all_time).1 =
      ⟨daysFromCivil 2000 1 1, 0⟩ := by
    simp [dashboard.getDateRange, JsDate.setFullYear, JsDate.setHours_zero,
      h0, h1]
  refine ⟨rfl, ?_, hstart, by decide, ?_⟩
  · intro threads t ht _
    simpa [supportTickets.filterThreads, supportTickets.getDateRange] using ht
  · intro u d hd hlt
    rw [hstart]
    have hnle : ¬ (JsDate.toMillis ⟨daysFromCivil 2000 1 1, 0⟩ ≤ d.toMillis) :=
      not_le.2 hlt
    simp [dashboard.activeInRange, hd, hnle]

/-- Witness for `allTime_convention_mismatch`: a thread from 1983 survives the
`all_time` support-ticket filter, while a user whose last activity is in 1967
is rejected by the dashboard's `all_time` active-user test. -/
theorem allTime_convention_mismatch_witness :
    (⟨some ⟨5000, 0⟩, none⟩ : ThreadDoc) ∈
      supportTickets.filterThreads ⟨20737, 43200000⟩ DateRange.all_time
        [⟨some ⟨5000, 0⟩, none⟩] ∧
    dashboard.activeInRange
      (dashboard.getDateRange ⟨20737, 43200000⟩ DateRange.all_time).1
      (dashboard.getDateRange ⟨20737, 43200000⟩ DateRange.all_time).2
      { emptyUser with updatedAt := some ⟨-1000, 0⟩ } = false :=
  ⟨(allTime_convention_mismatch ⟨20737, 43200000⟩).2.1
      [⟨some ⟨5000, 0⟩, none⟩] ⟨some ⟨5000, 0⟩, none⟩ (by simp) (Or.inl rfl),
   (allTime_convention_mismatch ⟨20737, 43200000⟩).2.2.2.2
      { emptyUser with updatedAt := some ⟨-1000, 0⟩ } ⟨-1000, 0⟩ rfl (by decide)⟩

/-- JS string truthiness: a string field is truthy when present and
non-empty. -/
def truthyStr (s : Option String) : Bool :=
  match s with
  | some v => decide (v ≠ "")
  | none => false

/-- JS `a || b` for string-valued fields (the empty string is falsy). -/
def jsOrStr (a b : Option String) : Option String :=
  if truthyStr a then a else b

/-- `hasLettersForDispute` of `disputesService.ts` (lines 107-110).  The JS
`userData.letters || userData.generatedLetters || []` takes `letters`
whenever the field is present — even an empty array is truthy — and falls
back to `generatedLetters` only when `letters` is absent. -/
def disputesService.hasLettersForDispute (userData : UserDoc) : Bool :=
  let letters := (jsOr userData.letters userData.generatedLetters).getD []
  decide (0 < letters.length)

/-- `determineDisputeStatus` of `disputesService.ts` (lines 115-128); the
returned strings mirror the TS `DisputeStatus` string-literal union. -/
def disputesService.determineDisputeStatus (dispute : DisputeDoc)
    (userData : UserDoc) : String :=
  if dispute.status = some "resolved" ∨ dispute.status = some "closed" then
    "resolved"
  else if disputesService.hasLettersForDispute userData then "mailed"
  else "open"

/-- C2 counterexample: a dispute whose own status is `"closed"` — so not
`"resolved"` — on a user who has letters is mapped to `"resolved"`, while the
claim's case split predicts `"mailed"` (letters array non-empty). -/
theorem determineDisputeStatus_closed_counterexample :
    disputesService.determineDisputeStatus ⟨some "closed"⟩
      { emptyUser with letters := some [⟨none, none⟩] } = "resolved" ∧
    ("resolved" : String) ≠ "mailed" ∧
    (⟨some "closed"⟩ : DisputeDoc).status ≠ some "resolved" ∧
    disputesService.hasLettersForDispute
      { emptyUser with letters := some [⟨none, none⟩] } = true :=
  ⟨rfl, by decide, by decide, rfl⟩

/-- C2 (amended): the derived dispute status is a pure function of the
dispute's own status field and of whether the owning user has any letters;
it is `"resolved"` when that status is `"resolved"` or `"closed"` (not only
`"resolved"`), regardless of letters; otherwise `"mailed"` when the user's
`letters` (or `generatedLetters`) array is non-empty; otherwise `"open"`. -/
theorem determineDisputeStatus_spec (d1 d2 : DisputeDoc) (u1 u2 : UserDoc)
    (s : Option String) (hs1 : s ≠ some "resolved") (hs2 : s ≠ some "closed") :
    (d1.status = d2.status →
      disputesService.hasLettersForDispute u1 =
        disputesService.hasLettersForDispute u2 →
      disputesService.determineDisputeStatus d1 u1 =
        disputesService.determineDisputeStatus d2 u2) ∧
    disputesService.determineDisputeStatus ⟨some "resolved"⟩ u1 = "resolved" ∧
    disputesService.determineDisputeStatus ⟨some "closed"⟩ u1 = "resolved" ∧
    disputesService.determineDisputeStatus ⟨s⟩ u1 =
      (if disputesService.hasLettersForDispute u1 then "mailed" else "open") := by
  refine ⟨?_, by simp [disputesService.determineDisputeStatus],
    by simp [disputesService.determineDisputeStatus], ?_⟩
  · intro hst hl
    simp [disputesService.determineDisputeStatus, hst, hl]
  · simp [disputesService.determineDisputeStatus, hs1, hs2]

/-- Witness for `determineDisputeStatus_spec` at a concrete `"pending"`
status and concrete users (one with letters, one without). -/
theorem determineDisputeStatus_spec_witness :
    ((⟨some "pending"⟩ : DisputeDoc).status =
        (⟨some "pending"⟩ : DisputeDoc).status →
      disputesService.hasLettersForDispute
          { emptyUser with letters := some [⟨none, none⟩] } =
        disputesService.hasLettersForDispute
          { emptyUser with generatedLetters := some [⟨none, none⟩] } →
      disputesService.determineDisputeStatus ⟨some "pending"⟩
          { emptyUser with letters := some [⟨none, none⟩] } =
        disputesService.determineDisputeStatus ⟨some "pending"⟩
          { emptyUser with generatedLetters := some [⟨none, none⟩] }) ∧
    disputesService.determineDisputeStatus ⟨some "resolved"⟩
      { emptyUser with letters := some [⟨none, none⟩] } = "resolved" ∧
    disputesService.determineDisputeStatus ⟨some "closed"⟩
      { emptyUser with letters := some [⟨none, none⟩] } = "resolved" ∧
    disputesService.determineDisputeStatus ⟨some "pending"⟩
        { emptyUser with letters := some [⟨none, none⟩] } =
      (if disputesService.hasLettersForDispute
          { emptyUser with letters := some [⟨none, none⟩] } then "mailed"
        else "open") :=
  determineDisputeStatus_spec ⟨some "pending"⟩ ⟨some "pending"⟩
    { emptyUser with letters := some [⟨none, none⟩] }
    { emptyUser with generatedLetters := some [⟨none, none⟩] }
    (some "pending") (by decide) (by decide)

/-- `calculateDelta` of `dashboardService.ts` (lines 385-393); JS numbers are
modeled as rationals. -/
def dashboard.calculateDelta (current previous : ℚ) : ℚ :=
  if previous = 0 then (if current > 0 then 100 else 0)
  else (current - previous) / previous * 100

/-- `getDeltaPercentage` of `useDashboardStats.ts` (lines 70-78): `previous`
may be undefined (`none`), and `!previous || previous === 0` holds exactly
for none-or-zero. -/
def useDashboardStats.getDeltaPercentage (current : ℚ)
    (previous : Option ℚ) : ℚ :=
  match previous with
  | none => if current > 0 then 100 else 0
  | some p =>
    if p = 0 then (if current > 0 then 100 else 0)
    else (current - p) / p * 100

/-- C3: both copies of the percentage-change delta satisfy
`delta(x, 0) = 100` for `x > 0`, `delta(0, 0) = 0`, and
`delta(c, p) = (c - p) / p * 100` whenever `p ≠ 0` — in particular
`delta(150, 100) = 50`. -/
theorem delta_spec (x c p : ℚ) (hx : 0 < x) (hp : p ≠ 0) :
    dashboard.calculateDelta x 0 = 100 ∧
    useDashboardStats.getDeltaPercentage x (some 0) = 100 ∧
    dashboard.calculateDelta 0 0 = 0 ∧
    useDashboardStats.getDeltaPercentage 0 (some 0) = 0 ∧
    dashboard.calculateDelta c p = (c - p) / p * 100 ∧
    useDashboardStats.getDeltaPercentage c (some p) = (c - p) / p * 100 ∧
    dashboard.calculateDelta 150 100 = 50 ∧
    useDashboardStats.getDeltaPercentage 150 (some 100) = 50 := by
  refine ⟨?_, ?_, ?_, ?_, ?_, ?_, ?_, ?_⟩ <;>
    simp [dashboard.calculateDelta, useDashboardStats.getDeltaPercentage,
      hx, hp] <;> norm_num

/-- Witness for `delta_spec` at `x = 1`, `c = 2`, `p = 3`. -/
theorem delta_spec_witness :
    dashboard.calculateDelta 1 0 = 100 ∧
    useDashboardStats.getDeltaPercentage 1 (some 0) = 100 ∧
    dashboard.calculateDelta 0 0 = 0 ∧
    useDashboardStats.getDeltaPercentage 0 (some 0) = 0 ∧
    dashboard.calculateDelta 2 3 = ((2 : ℚ) - 3) / 3 * 100 ∧
    useDashboardStats.getDeltaPercentage 2 (some 3) = ((2 : ℚ) - 3) / 3 * 100 ∧
    dashboard.calculateDelta 150 100 = 50 ∧
    useDashboardStats.getDeltaPercentage 150 (some 100) = 50 :=
  delta_spec 1 2 3 (by norm_num) (by norm_num)

/-- `hasLetters` of `userJourneyService.ts` (lines 37-47) — the same
letters check as the disputes service performs. -/
def userJourney.hasLetters (userData : UserDoc) : Bool :=
  let letters := (jsOr userData.letters userData.generatedLetters).getD []
  decide (0 < letters.length)

/-- `calculateJourneyStage` of `userJourneyService.ts` (lines 52-102).
`nowMs` is `Date.now()` on the local-civil millisecond scale; the
30-day inactivity test divides the elapsed milliseconds by 86,400,000 as a
rational, exactly as the floating-point source divides. -/
def userJourney.calculateJourneyStage (nowMs : Int) (userData : UserDoc) :
    String :=
  let documentsCompleted : Bool := decide (userData.documentsCompleted = some true)
  let creditReportUrl := userData.creditReportUrl
  let tier := jsOrStr userData.membershipTier
    (jsOrStr userData.tier userData.membership)
  let disputes :=
    match userData.creditReportAnalysis with
    | some a => a.disputeCandidates.getD []
    | none => []
  let hasDisputes : Bool := decide (0 < disputes.length)
  let userHasLetters := userJourney.hasLetters userData
  if !documentsCompleted then "Onboarding & profile complete"
  else if !truthyStr creditReportUrl then "Credit pull & analysis"
  else if !truthyStr tier then "Plan assigned"
  else if !hasDisputes then "Disputes created & letters queued"
  else if userHasLetters then "Mailing & bureau responses"
  else
    match jsOr userData.updatedAt userData.createdAt with
    | some lastActivity =>
      if ((nowMs - lastActivity.toMillis : Int) : ℚ) / 86400000 > 30 ∧
          hasDisputes = true then
        "Monitoring & follow-up"
      else "Mailing & bureau responses"
    | none => "Mailing & bureau responses"

/-- C5: whenever `documentsCompleted` is not strictly `true` (false or
absent), the journey stage is "Onboarding & profile complete", regardless of
every other field of the user document. -/
theorem journeyStage_onboarding (nowMs : Int) (u : UserDoc)
    (h : u.documentsCompleted ≠ some true) :
    userJourney.calculateJourneyStage nowMs u =
      "Onboarding & profile complete" := by
  simp [userJourney.calculateJourneyStage, h]

/-- Witness for `journeyStage_onboarding`: `documentsCompleted = false` wins
even against a user with a credit report, a tier, disputes and letters. -/
theorem journeyStage_onboarding_witness :
    userJourney.calculateJourneyStage 0
      { emptyUser with
          documentsCompleted := some false,
          creditReportUrl := some "https://r.example/x.pdf",
          membershipTier := some "pro",
          creditReportAnalysis := some ⟨some [⟨some "open"⟩]⟩,
          letters := some [⟨none, none⟩] } =
      "Onboarding & profile complete" :=
  journeyStage_onboarding 0 _ (by decide)

/-- Stable insertion of `a` into a descending-sorted list: `a` is placed
after every earlier element with a strictly larger or equal key, which is
exactly where a stable sort with the comparator `(x, y) => key y - key x`
puts it. -/
def insertDescBy {α : Type} (key : α → Int) (a : α) : List α → List α
  | [] => [a]
  | b :: l => if key a < key b then b :: insertDescBy key a l else a :: b :: l

/-- Stable descending sort by `key`; `Array.prototype.sort` with the
comparator `(a, b) => key b - key a` (stable per the JS specification)
produces exactly this ordering. -/
def sortDescBy {α : Type} (key : α → Int) (l : List α) : List α :=
  l.foldr (insertDescBy key) []

theorem insertDescBy_perm {α : Type} (key : α → Int) (a : α) (l : List α) :
    List.Perm (insertDescBy key a l) (a :: l) := by
  induction l with
  | nil => simp [insertDescBy]
  | cons b l ih =>
    simp only [insertDescBy]
    split
    · exact (ih.cons b).trans (List.Perm.swap a b l)
    · exact List.Perm.refl _

theorem insertDescBy_pairwise {α : Type} (key : α → Int) (a : α) (l : List α)
    (h : l.Pairwise (fun x y => key y ≤ key x)) :
    (insertDescBy key a l).Pairwise (fun x y => key y ≤ key x) := by
  induction l with
  | nil => simp [insertDescBy]
  | cons b l ih =>
    rw [List.pairwise_cons] at h
    obtain ⟨hb, hl⟩ := h
    simp only [insertDescBy]
    split
    · rename_i hab
      rw [List.pairwise_cons]
      refine ⟨?_, ih hl⟩
      intro y hy
      have hy2 := (insertDescBy_perm key a l).mem_iff.1 hy
      rcases List.mem_cons.1 hy2 with rfl | hy3
      · exact le_of_lt hab
      · exact hb y hy3
    · rename_i hab
      rw [List.pairwise_cons]
      refine ⟨?_, List.pairwise_cons.2 ⟨hb, hl⟩⟩
      intro y hy
      rcases List.mem_cons.1 hy with rfl | hy
      · exact not_lt.1 hab
      · exact le_trans (hb y hy) (not_lt.1 hab)

theorem sortDescBy_pairwise {α : Type} (key : α → Int) (l : List α) :
    (sortDescBy key l).Pairwise (fun x y => key y ≤ key x) := by
  induction l with
  | nil => simp [sortDescBy]
  | cons a l ih => exact insertDescBy_pairwise key a _ ih

/-- A document of a user's `favoriteArticles` subcollection; `docId` is the
Firestore document id used when the `articleId` field is absent. -/
structure FavoriteDoc where
  docId : String
  articleId : Option String
  title : Option String
  createdAt : Option JsDate
deriving Repr, DecidableEq

/-- An `articles` collection document; only the fields read by
`getTopArticles` are modeled. -/
structure ArticleDoc where
  title : Option String
  createdAt : Option JsDate
deriving Repr, DecidableEq

/-- `data.articleId || doc.id` inside `getArticleFavoritesCount`. -/
def analytics.favArticleId (f : FavoriteDoc) : String :=
  match f.articleId with
  | some a => if a = "" then f.docId else a
  | none => f.docId

/-- `data.title || "Untitled Article"` inside `getArticleFavoritesCount`. -/
def analytics.favTitle (f : FavoriteDoc) : String :=
  match f.title with
  | some t => if t = "" then "Untitled Article" else t
  | none => "Untitled Article"

/-- The in-range test applied to each favorite's `createdAt`
(`getArticleFavoritesCount`, lines 668-683). -/
def analytics.favInRange (sMs eMs : Int) (f : FavoriteDoc) : Bool :=
  match f.createdAt with
  | some d => decide (sMs ≤ d.toMillis) && decide (d.toMillis ≤ eMs)
  | none => false

/-- One step of the `favoritesCount` map update:
`{title: current.title || title, count: current.count + 1}` with
first-insertion key order. -/
def upsertFavorite (m : List (String × String × Nat)) (id title : String) :
    List (String × String × Nat) :=
  match m with
  | [] => [(id, title, 1)]
  | (k, t, c) :: rest =>
    if k = id then (k, (if t = "" then title else t), c + 1) :: rest
    else (k, t, c) :: upsertFavorite rest id title

/-- `getArticleFavoritesCount` of the analytics service (lines 636-702):
counts, per article, the favorites whose `createdAt` falls inside the
resolved range.  The source reads each user's `favoriteArticles`
subcollection in batches of 10; batching only changes the encounter order,
so the scan is modeled as one pass over the concatenated favorites. -/
def analytics.getArticleFavoritesCount (sMs eMs : Int)
    (favs : List FavoriteDoc) : List (String × String × Nat) :=
  favs.foldl
    (fun m f =>
      if analytics.favInRange sMs eMs f then
        upsertFavorite m (analytics.favArticleId f) (analytics.favTitle f)
      else m)
    []

/-- One row of the "Top Articles" card. -/
structure TopArticle where
  title : String
  views : Nat
deriving Repr, DecidableEq

/-- The fallback query of `getTopArticles` (lines 728-753): articles created
within `[start, end]` — documents without `createdAt` are excluded by the
range query — ordered by `createdAt` descending, limited to 5. -/
def analytics.fallbackArticles (sMs eMs : Int) (articles : List ArticleDoc) :
    List ArticleDoc :=
  (sortDescBy
    (fun a => (match a.createdAt with | some d => d.toMillis | none => 0))
    (articles.filter (fun a =>
      match a.createdAt with
      | some d => decide (sMs ≤ d.toMillis) && decide (d.toMillis ≤ eMs)
      | none => false))).take 5

/-- `getTopArticles` of the analytics service (lines 708-759): favorites are
the primary signal; when no favorite falls inside the range, falls back to
the most recently created in-range articles with views hardcoded to 0; the
result is the top 5 sorted by count descending. -/
def analytics.getTopArticles (now : JsDate) (range : AnalyticsRange)
    (customStartDate customEndDate : Option JsDate)
    (favs : List FavoriteDoc) (articles : List ArticleDoc) :
    List TopArticle :=
  if 0 < (analytics.getArticleFavoritesCount
      (analytics.calculateDateRange now range customStartDate
        customEndDate).1.toMillis
      (analytics.calculateDateRange now range customStartDate
        customEndDate).2.toMillis favs).length then
    ((sortDescBy (fun x => (x.2.2 : Int))
        (analytics.getArticleFavoritesCount
          (analytics.calculateDateRange now range customStartDate
            customEndDate).1.toMillis
          (analytics.calculateDateRange now range customStartDate
            customEndDate).2.toMillis favs)).take 5).map
      (fun x => ⟨x.2.1, x.2.2⟩)
  else
    (analytics.fallbackArticles
      (analytics.calculateDateRange now range customStartDate
        customEndDate).1.toMillis
      (analytics.calculateDateRange now range customStartDate
        customEndDate).2.toMillis articles).map
      (fun a =>
        ⟨(match a.title with
          | some t => if t = "" then "Untitled Article" else t
          | none => "Untitled Article"), 0⟩)

theorem getArticleFavoritesCount_filter (sMs eMs : Int)
    (favs : List FavoriteDoc) :
    analytics.getArticleFavoritesCount sMs eMs favs =
      analytics.getArticleFavoritesCount sMs eMs
        (favs.filter (analytics.favInRange sMs eMs)) := by
  unfold analytics.getArticleFavoritesCount
  suffices h : ∀ (fs : List FavoriteDoc) (acc : List (String × String × Nat)),
      fs.foldl
        (fun m f =>
          if analytics.favInRange sMs eMs f then
            upsertFavorite m (analytics.favArticleId f) (analytics.favTitle f)
          else m) acc =
      (fs.filter (analytics.favInRange sMs eMs)).foldl
        (fun m f =>
          if analytics.favInRange sMs eMs f then
            upsertFavorite m (analytics.favArticleId f) (analytics.favTitle f)
          else m) acc by
    exact h favs []
  intro fs
  induction fs with
  | nil => intro acc; rfl
  | cons f fs ih =>
    intro acc
    by_cases hf : analytics.favInRange sMs eMs f
    · simp [List.filter_cons, hf, ih]
    · simp [List.filter_cons, hf, ih]

theorem upsertFavorite_length (m : List (String × String × Nat))
    (id title : String) : m.length ≤ (upsertFavorite m id title).length := by
  induction m with
  | nil => simp [upsertFavorite]
  | cons a m ih =>
    obtain ⟨k, t0, c⟩ := a
    simp only [upsertFavorite]
    split
    · simp
    · simp only [List.length_cons]
      omega

theorem favoritesFold_length_mono (sMs eMs : Int) :
    ∀ (fs : List FavoriteDoc) (acc : List (String × String × Nat)),
      acc.length ≤
        (fs.foldl
          (fun m f =>
            if analytics.favInRange sMs eMs f then
              upsertFavorite m (analytics.favArticleId f) (analytics.favTitle f)
            else m) acc).length := by
  intro fs
  induction fs with
  | nil => intro acc; simp
  | cons f fs ih =>
    intro acc
    simp only [List.foldl_cons]
    refine le_trans ?_ (ih _)
    split
    · exact upsertFavorite_length acc _ _
    · exact le_refl _

/-- When at least one favorite falls inside the range, the aggregated
favorites table is non-empty, so `getTopArticles` takes the primary
(favorites) branch. -/
theorem getArticleFavoritesCount_pos (sMs eMs : Int)
    (favs : List FavoriteDoc)
    (hne : favs.filter (analytics.favInRange sMs eMs) ≠ []) :
    0 < (analytics.getArticleFavoritesCount sMs eMs favs).length := by
  rw [getArticleFavoritesCount_filter]
  obtain ⟨f, fs, hlist⟩ :
      ∃ f fs, favs.filter (analytics.favInRange sMs eMs) = f :: fs := by
    cases h : favs.filter (analytics.favInRange sMs eMs) with
    | nil => exact absurd h hne
    | cons f fs => exact ⟨f, fs, rfl⟩
  rw [hlist]
  have hf : analytics.favInRange sMs eMs f = true := by
    have hmem : f ∈ favs.filter (analytics.favInRange sMs eMs) :=
      hlist ▸ List.mem_cons_self f fs
    exact (List.mem_filter.1 hmem).2
  unfold analytics.getArticleFavoritesCount
  simp only [List.foldl_cons, hf, if_true]
  calc 0 < (upsertFavorite [] (analytics.favArticleId f)
        (analytics.favTitle f)).length := by simp [upsertFavorite]
    _ ≤ _ := favoritesFold_length_mono sMs eMs fs _

/-- In a descending-sorted list, every element kept by `take n` dominates
every element discarded by `drop n`. -/
theorem take_drop_pairwise_le {α : Type} (key : α → Int) (l : List α)
    (n : Nat) (hl : l.Pairwise (fun x y => key y ≤ key x)) :
    ∀ x ∈ l.take n, ∀ y ∈ l.drop n, key y ≤ key x := by
  have hsplit := List.take_append_drop n l
  rw [← hsplit] at hl
  exact fun x hx y hy => (List.pairwise_append.1 hl).2.2 x hx y hy

theorem pairwise_views_of_map_const {α : Type} (l : List α)
    (f : α → TopArticle) (hf : ∀ a, (f a).views = 0) :
    (l.map f).Pairwise (fun x y => y.views ≤ x.views) := by
  induction l with
  | nil => simp
  | cons a l ih =>
    rw [List.map_cons, List.pairwise_cons]
    refine ⟨?_, ih⟩
    intro y hy
    obtain ⟨b, _, rfl⟩ := List.mem_map.1 hy
    simp [hf]

/-- C8: `getTopArticles` counts exactly the favorites whose `createdAt` lies
in the resolved range; when at least one favorite falls in range the result
is the top 5 of the per-article favorite counts (every discarded aggregated
entry has a count no larger than every returned one); when no favorite falls
in range it returns the fallback articles with views hardcoded to 0; and the
result always has at most 5 entries, sorted by count descending. -/
theorem topArticles_spec (now : JsDate) (range : AnalyticsRange)
    (customStartDate customEndDate : Option JsDate)
    (favs : List FavoriteDoc) (articles : List ArticleDoc)
    (sMsv eMsv : Int)
    (hsMs : sMsv = (analytics.calculateDateRange now range customStartDate
        customEndDate).1.toMillis)
    (heMs : eMsv = (analytics.calculateDateRange now range customStartDate
        customEndDate).2.toMillis) :
    (analytics.getArticleFavoritesCount sMsv eMsv favs =
      analytics.getArticleFavoritesCount sMsv eMsv
        (favs.filter (analytics.favInRange sMsv eMsv))) ∧
    (favs.filter (analytics.favInRange sMsv eMsv) = [] →
      analytics.getTopArticles now range customStartDate customEndDate
          favs articles =
        (analytics.fallbackArticles sMsv eMsv articles).map
          (fun a =>
            ⟨(match a.title with
              | some t => if t = "" then "Untitled Article" else t
              | none => "Untitled Article"), 0⟩) ∧
      ∀ t ∈ analytics.getTopArticles now range customStartDate customEndDate
          favs articles, t.views = 0) ∧
    (favs.filter (analytics.favInRange sMsv eMsv) ≠ [] →
      analytics.getTopArticles now range customStartDate customEndDate
          favs articles =
        ((sortDescBy (fun x => (x.2.2 : Int))
          (analytics.getArticleFavoritesCount sMsv eMsv favs)).take 5).map
          (fun x => ⟨x.2.1, x.2.2⟩) ∧
      ∀ y ∈ (sortDescBy (fun x => (x.2.2 : Int))
          (analytics.getArticleFavoritesCount sMsv eMsv favs)).drop 5,
        ∀ p ∈ analytics.getTopArticles now range customStartDate
            customEndDate favs articles, y.2.2 ≤ p.views) ∧
    (analytics.getTopArticles now range customStartDate customEndDate
        favs articles).length ≤ 5 ∧
    (analytics.getTopArticles now range customStartDate customEndDate
        favs articles).Pairwise (fun x y => y.views ≤ x.views) := by
  subst hsMs heMs
  refine ⟨getArticleFavoritesCount_filter _ _ favs, ?_, ?_, ?_, ?_⟩
  · intro hempty
    have hcnt : analytics.getArticleFavoritesCount
        (analytics.calculateDateRange now range customStartDate
          customEndDate).1.toMillis
        (analytics.calculateDateRange now range customStartDate
          customEndDate).2.toMillis favs = [] := by
      rw [getArticleFavoritesCount_filter, hempty]
      rfl
    constructor
    · unfold analytics.getTopArticles
      rw [hcnt]
      simp
    · intro t ht
      unfold analytics.getTopArticles at ht
      rw [hcnt] at ht
      simp only [List.length_nil, lt_self_iff_false, if_false] at ht
      obtain ⟨a, _, rfl⟩ := List.mem_map.1 ht
      rfl
  · intro hne
    have hpos := getArticleFavoritesCount_pos _ _ favs hne
    have hres : analytics.getTopArticles now range customStartDate
        customEndDate favs articles =
        ((sortDescBy (fun x => (x.2.2 : Int))
          (analytics.getArticleFavoritesCount
            (analytics.calculateDateRange now range customStartDate
              customEndDate).1.toMillis
            (analytics.calculateDateRange now range customStartDate
              customEndDate).2.toMillis favs)).take 5).map
          (fun x => ⟨x.2.1, x.2.2⟩) := by
      unfold analytics.getTopArticles
      rw [if_pos hpos]
    refine ⟨hres, ?_⟩
    intro y hy p hp
    rw [hres] at hp
    obtain ⟨x, hx, rfl⟩ := List.mem_map.1 hp
    have hkey := take_drop_pairwise_le
      (fun x : String × String × Nat => (x.2.2 : Int))
      (sortDescBy (fun x : String × String × Nat => (x.2.2 : Int))
        (analytics.getArticleFavoritesCount
          (analytics.calculateDateRange now range customStartDate
            customEndDate).1.toMillis
          (analytics.calculateDateRange now range customStartDate
            customEndDate).2.toMillis favs)) 5
      (sortDescBy_pairwise _ _) x hx y hy
    simpa using hkey
  · unfold analytics.getTopArticles
    split
    · rw [List.length_map]
      exact List.length_take_le 5 _
    · rw [List.length_map]
      unfold analytics.fallbackArticles
      exact List.length_take_le 5 _
  · unfold analytics.getTopArticles
    split
    · have hs := sortDescBy_pairwise
        (fun x : String × String × Nat => (x.2.2 : Int))
        (analytics.getArticleFavoritesCount
          (analytics.calculateDateRange now range customStartDate
            customEndDate).1.toMillis
          (analytics.calculateDateRange now range customStartDate
            customEndDate).2.toMillis favs)
      have htake := hs.sublist (List.take_sublist 5 _)
      refine List.pairwise_map.2 (htake.imp ?_)
      intro x y hxy
      simpa using hxy
    · exact pairwise_views_of_map_const _ _ (fun a => rfl)

/-- Witness for `topArticles_spec` at 2026-10-11 noon, `last_7_days`, with
one favorite created inside the window (local civil day 20731) and no
articles; the range's local-millisecond bounds evaluate to the two given
constants. -/
theorem topArticles_spec_witness :
    (analytics.getArticleFavoritesCount 1791072000000 1791763199999
        [⟨"f1", some "art1", some "Budgeting 101", some ⟨20731, 0⟩⟩] =
      analytics.getArticleFavoritesCount 1791072000000 1791763199999
        (([⟨"f1", some "art1", some "Budgeting 101", some ⟨20731, 0⟩⟩] :
            List FavoriteDoc).filter
          (analytics.favInRange 1791072000000 1791763199999))) ∧
    (([⟨"f1", some "art1", some "Budgeting 101", some ⟨20731, 0⟩⟩] :
        List FavoriteDoc).filter
        (analytics.favInRange 1791072000000 1791763199999) = [] →
      analytics.getTopArticles ⟨20737, 43200000⟩ AnalyticsRange.last_7_days
          none none
          [⟨"f1", some "art1", some "Budgeting 101", some ⟨20731, 0⟩⟩] [] =
        (analytics.fallbackArticles 1791072000000 1791763199999 []).map
          (fun a =>
            ⟨(match a.title with
              | some t => if t = "" then "Untitled Article" else t
              | none => "Untitled Article"), 0⟩) ∧
      ∀ t ∈ analytics.getTopArticles ⟨20737, 43200000⟩
          AnalyticsRange.last_7_days none none
          [⟨"f1", some "art1", some "Budgeting 101", some ⟨20731, 0⟩⟩] [],
        t.views = 0) ∧
    (([⟨"f1", some "art1", some "Budgeting 101", some ⟨20731, 0⟩⟩] :
        List FavoriteDoc).filter
        (analytics.favInRange 1791072000000 1791763199999) ≠ [] →
      analytics.getTopArticles ⟨20737, 43200000⟩ AnalyticsRange.last_7_days
          none none
          [⟨"f1", some "art1", some "Budgeting 101", some ⟨20731, 0⟩⟩] [] =
        ((sortDescBy (fun x => (x.2.2 : Int))
          (analytics.getArticleFavoritesCount 1791072000000 1791763199999
            [⟨"f1", some "art1", some "Budgeting 101",
              some ⟨20731, 0⟩⟩])).take 5).map
          (fun x => ⟨x.2.1, x.2.2⟩) ∧
      ∀ y ∈ (sortDescBy (fun x => (x.2.2 : Int))
          (analytics.getArticleFavoritesCount 1791072000000 1791763199999
            [⟨"f1", some "art1", some "Budgeting 101",
              some ⟨20731, 0⟩⟩])).drop 5,
        ∀ p ∈ analytics.getTopArticles ⟨20737, 43200000⟩
            AnalyticsRange.last_7_days none none
            [⟨"f1", some "art1", some "Budgeting 101", some ⟨20731, 0⟩⟩] [],
          y.2.2 ≤ p.views) ∧
    (analytics.getTopArticles ⟨20737, 43200000⟩ AnalyticsRange.last_7_days
        none none
        [⟨"f1", some "art1", some "Budgeting 101", some ⟨20731, 0⟩⟩]
        []).length ≤ 5 ∧
    (analytics.getTopArticles ⟨20737, 43200000⟩ AnalyticsRange.last_7_days
        none none
        [⟨"f1", some "art1", some "Budgeting 101", some ⟨20731, 0⟩⟩]
        []).Pairwise (fun x y => y.views ≤ x.views) :=
  topArticles_spec ⟨20737, 43200000⟩ AnalyticsRange.last_7_days none none
    [⟨"f1", some "art1", some "Budgeting 101", some ⟨20731, 0⟩⟩] []
    1791072000000 1791763199999 (by decide) (by decide)

/-- The `UserTier` union of `UserTable.tsx`. -/
inductive UserTier
  | Pro
  | Advantage
  | Core
deriving Repr, DecidableEq

/-- The `UserStatus` union of `UserTable.tsx`. -/
inductive UserStatus
  | active
  | inactive
deriving Repr, DecidableEq

/-- A vendor (Firebase Auth) error as caught by `createUser`: a `code` plus
a `message` (the message may be empty). -/
structure AuthErrorDoc where
  code : String
  message : String
deriving Repr, DecidableEq

/-- The `CreateUserData` input of `userService.createUser`. -/
structure CreateUserData where
  name : String
  email : String
  password : String
  tier : UserTier
  status : UserStatus
  phone : Option String
  address : Option String
  dateJoined : Option String
deriving Repr, DecidableEq

/-- `mapTierToFirestore` of `userService.ts` (lines 219-221). -/
def userService.mapTierToFirestore (tier : UserTier) : String :=
  match tier with
  | .Pro => "pro"
  | .Advantage => "advantage"
  | .Core => "core"

/-- `parseAddress` of `userService.ts` (lines 227-242): split on commas,
trim, and take the first four parts, empty parts becoming undefined. -/
def userService.parseAddress (address : Option String) :
    Option String × Option String × Option String × Option String :=
  match address with
  | none => (none, none, none, none)
  | some a =>
    if a = "" then (none, none, none, none)
    else
      let parts := (a.splitOn ",").map String.trim
      let get := fun i =>
        match parts.get? i with
        | some s => if s = "" then none else some s
        | none => none
      (get 0, get 1, get 2, get 3)

/-- The Firestore document written by `createUser` (lines 284-300).
`createdAt`/`updatedAt` are local-millisecond instants; the source's
`new Date(dateJoined)` parse is modeled by the already-parsed
`parsedDateJoined` input of `createUser`. -/
structure UserWriteDoc where
  uid : String
  name : String
  email : String
  phone : Option String
  address : Option String
  city : Option String
  state : Option String
  zipCode : Option String
  membershipTier : String
  isActive : Bool
  status : UserStatus
  createdAt : Int
  updatedAt : Int
  documentsCompleted : Bool
deriving Repr, DecidableEq

/-- The externally visible effects of `createUser`: the Auth-account
creation and the single `setDoc` on `users/{uid}`. -/
inductive UserServiceEffect
  | authCreate (email password : String)
  | firestoreSetUser (uid : String) (doc : UserWriteDoc)
deriving Repr, DecidableEq

/-- The error-message mapping of `createUser`'s catch block (lines 304-314):
three known vendor codes map to fixed user-facing strings; any other error
falls through to `error.message || "Failed to create user"`. -/
def userService.mapCreateUserError (e : AuthErrorDoc) : String :=
  if e.code = "auth/email-already-in-use" then
    "An account already exists with this email address."
  else if e.code = "auth/invalid-email" then "Invalid email address."
  else if e.code = "auth/weak-password" then
    "Password should be at least 6 characters."
  else if e.message = "" then "Failed to create user"
  else e.message

/-- `createUser` of `userService.ts` (lines 258-315), as a function of the
outcome of the vendor Auth call (`authResult`): on Auth success it performs
exactly one further effect, the `setDoc` of the assembled user document; on
Auth failure it performs no write and returns the mapped error message.
`nowMs` models `Timestamp.now()` and `parsedDateJoined` the result of
parsing `userData.dateJoined` (none when absent or invalid). -/
def userService.createUser (userData : CreateUserData)
    (authResult : Except AuthErrorDoc String) (nowMs : Int)
    (parsedDateJoined : Option Int) :
    List UserServiceEffect × Except String String :=
  match authResult with
  | .error e =>
    ([.authCreate userData.email userData.password],
     .error (userService.mapCreateUserError e))
  | .ok uid =>
    let ap := userService.parseAddress userData.address
    let doc : UserWriteDoc :=
      { uid := uid
        name := userData.name
        email := userData.email
        phone := userData.phone.bind (fun s => if s = "" then none else some s)
        address := ap.1
        city := ap.2.1
        state := ap.2.2.1
        zipCode := ap.2.2.2
        membershipTier := userService.mapTierToFirestore userData.tier
        isActive := decide (userData.status = UserStatus.active)
        status := userData.status
        createdAt := parsedDateJoined.getD nowMs
        updatedAt := nowMs
        documentsCompleted := false }
    ([.authCreate userData.email userData.password,
      .firestoreSetUser uid doc], .ok uid)

/-- C9 counterexample: an unknown vendor code with an empty message makes
`createUser` throw the generic fallback `"Failed to create user"`, not the
raw (empty) error message the claim promises for every unknown code. -/
theorem createUser_unknown_empty_message_counterexample :
    (userService.createUser
        ⟨"N", "n@example.com", "hunter2abc", UserTier.Core, UserStatus.active,
          none, none, none⟩
        (Except.error ⟨"auth/network-request-failed", ""⟩) 0 none).2 =
      Except.error "Failed to create user" ∧
    ("Failed to create user" : String) ≠ "" := ⟨rfl, by decide⟩

/-- C9 (amended): `createUser` performs exactly one Auth-account creation
followed by exactly one Firestore document write; when the Auth creation
fails no write is performed, the three known vendor codes map to their fixed
user-facing strings, and an unknown code surfaces the raw error message when
that message is non-empty (an empty message falls back to
"Failed to create user"). -/
theorem createUser_spec (userData : CreateUserData) (nowMs : Int)
    (parsedDateJoined : Option Int) (e : AuthErrorDoc) (uid : String)
    (hknown : e.code ≠ "auth/email-already-in-use" ∧
      e.code ≠ "auth/invalid-email" ∧ e.code ≠ "auth/weak-password")
    (hmsg : e.message ≠ "") :
    (userService.createUser userData (Except.error e) nowMs
        parsedDateJoined).1 =
      [UserServiceEffect.authCreate userData.email userData.password] ∧
    (userService.createUser userData
        (Except.error ⟨"auth/email-already-in-use", "m"⟩) nowMs
        parsedDateJoined).2 =
      Except.error "An account already exists with this email address." ∧
    (userService.createUser userData
        (Except.error ⟨"auth/invalid-email", "m"⟩) nowMs
        parsedDateJoined).2 = Except.error "Invalid email address." ∧
    (userService.createUser userData
        (Except.error ⟨"auth/weak-password", "m"⟩) nowMs
        parsedDateJoined).2 =
      Except.error "Password should be at least 6 characters." ∧
    (userService.createUser userData (Except.error e) nowMs
        parsedDateJoined).2 = Except.error e.message ∧
    (∃ doc, (userService.createUser userData (Except.ok uid) nowMs
        parsedDateJoined).1 =
      [UserServiceEffect.authCreate userData.email userData.password,
       UserServiceEffect.firestoreSetUser uid doc]) ∧
    (userService.createUser userData (Except.ok uid) nowMs
        parsedDateJoined).2 = Except.ok uid := by
  obtain ⟨h1, h2, h3⟩ := hknown
  refine ⟨rfl, rfl, rfl, rfl, ?_, ⟨_, rfl⟩, rfl⟩
  simp [userService.createUser, userService.mapCreateUserError, h1, h2, h3,
    hmsg]

/-- Witness for `createUser_spec` at a concrete unknown error code and a
concrete successful creation. -/
theorem createUser_spec_witness :
    (userService.createUser
        ⟨"N", "n@example.com", "hunter2abc", UserTier.Core, UserStatus.active,
          none, none, none⟩
        (Except.error ⟨"auth/too-many-requests", "Too many attempts."⟩) 7 none).1 =
      [UserServiceEffect.authCreate "n@example.com" "hunter2abc"] ∧
    (userService.createUser
        ⟨"N", "n@example.com", "hunter2abc", UserTier.Core, UserStatus.active,
          none, none, none⟩
        (Except.error ⟨"auth/email-already-in-use", "m"⟩) 7 none).2 =
      Except.error "An account already exists with this email address." ∧
    (userService.createUser
        ⟨"N", "n@example.com", "hunter2abc", UserTier.Core, UserStatus.active,
          none, none, none⟩
        (Except.error ⟨"auth/invalid-email", "m"⟩) 7 none).2 =
      Except.error "Invalid email address." ∧
    (userService.createUser
        ⟨"N", "n@example.com", "hunter2abc", UserTier.Core, UserStatus.active,
          none, none, none⟩
        (Except.error ⟨"auth/weak-password", "m"⟩) 7 none).2 =
      Except.error "Password should be at least 6 characters." ∧
    (userService.createUser
        ⟨"N", "n@example.com", "hunter2abc", UserTier.Core, UserStatus.active,
          none, none, none⟩
        (Except.error ⟨"auth/too-many-requests", "Too many attempts."⟩) 7 none).2 =
      Except.error (AuthErrorDoc.mk "auth/too-many-requests"
        "Too many attempts.").message ∧
    (∃ doc, (userService.createUser
        ⟨"N", "n@example.com", "hunter2abc", UserTier.Core, UserStatus.active,
          none, none, none⟩
        (Except.ok "uid1") 7 none).1 =
      [UserServiceEffect.authCreate "n@example.com" "hunter2abc",
       UserServiceEffect.firestoreSetUser "uid1" doc]) ∧
    (userService.createUser
        ⟨"N", "n@example.com", "hunter2abc", UserTier.Core, UserStatus.active,
          none, none, none⟩
        (Except.ok "uid1") 7 none).2 = Except.ok "uid1" :=
  createUser_spec
    ⟨"N", "n@example.com", "hunter2abc", UserTier.Core, UserStatus.active,
      none, none, none⟩ 7 none
    ⟨"auth/too-many-requests", "Too many attempts."⟩ "uid1"
    ⟨by decide, by decide, by decide⟩ (by decide)

/-- Prefix test on character lists (JS `String.prototype.startsWith`). -/
def startsWithChars : List Char → List Char → Bool
  | [], _ => true
  | _ :: _, [] => false
  | c :: a, d :: b => decide (c = d) && startsWithChars a b

/-- Substring test on character lists (JS `String.prototype.includes`). -/
def hasSubChars (needle : List Char) : List Char → Bool
  | [] => startsWithChars needle []
  | c :: t => startsWithChars needle (c :: t) || hasSubChars needle t

/-- The mapped `User` row of `UserTable.tsx`, restricted to the fields that
`getUsers`'s search/tier/status filters read. -/
structure AdminUser where
  id : String
  name : String
  email : String
  tier : UserTier
  status : UserStatus
deriving Repr, DecidableEq

/-- The `tierFilter` parameter of `getUsers`: absent, `"all"`, or a tier. -/
inductive TierFilterParam
  | all
  | tier (t : UserTier)
deriving Repr, DecidableEq

/-- The `statusFilter` parameter of `getUsers`. -/
inductive StatusFilterParam
  | all
  | status (s : UserStatus)
deriving Repr, DecidableEq

/-- The result shape of `getUsers`. -/
structure GetUsersResult where
  users : List AdminUser
  total : Nat
  hasMore : Bool
deriving Repr, DecidableEq

/-- The search predicate of `getUsers` (lines 160-167):
`user.name.toLowerCase().includes(searchLower) ||
user.email.toLowerCase().includes(searchLower)`. -/
def userService.matchesSearch (searchLower : String) (u : AdminUser) : Bool :=
  hasSubChars searchLower.data u.name.toLower.data ||
    hasSubChars searchLower.data u.email.toLower.data

/-- The search stage of `getUsers` (lines 160-167): applied when
`search && search.trim()` is truthy, against the lowercased trimmed needle. -/
def userService.searchFiltered (allUsers : List AdminUser)
    (search : Option String) : List AdminUser :=
  match search with
  | some s =>
    if s ≠ "" ∧ s.trim ≠ "" then
      allUsers.filter (userService.matchesSearch (s.toLower.trim))
    else allUsers
  | none => allUsers

/-- The tier stage of `getUsers` (lines 169-172): applied when
`tierFilter && tierFilter !== "all"`. -/
def userService.tierFiltered (l : List AdminUser)
    (tierFilter : Option TierFilterParam) : List AdminUser :=
  match tierFilter with
  | some (.tier t) => l.filter (fun u => decide (u.tier = t))
  | _ => l

/-- The status stage of `getUsers` (lines 174-177). -/
def userService.statusFiltered (l : List AdminUser)
    (statusFilter : Option StatusFilterParam) : List AdminUser :=
  match statusFilter with
  | some (.status st) => l.filter (fun u => decide (u.status = st))
  | _ => l

/-- The in-memory filtering chain of `getUsers` (lines 160-177): the source
reassigns `allUsers` through the three filters in this order. -/
def userService.applyFilters (allUsers : List AdminUser)
    (search : Option String) (tierFilter : Option TierFilterParam)
    (statusFilter : Option StatusFilterParam) : List AdminUser :=
  userService.statusFiltered
    (userService.tierFiltered
      (userService.searchFiltered allUsers search) tierFilter) statusFilter

/-- `getUsers` of `userService.ts` (lines 131-200), as a function of the
already-fetched, query-ordered and mapped user rows (`allUsers`): in-memory
filtering followed by `slice((page-1)*pageSize, (page-1)*pageSize+pageSize)`
pagination over the filtered list (`slice(start, end)` with `0 ≤ start` is
drop-then-take), `total` the filtered length, and
`hasMore = endIndex < total`.  Callers always supply `page ≥ 1` (JS would
index from the end of the array on a negative start). -/
def userService.getUsers (allUsers : List AdminUser) (page pageSize : Nat)
    (search : Option String) (tierFilter : Option TierFilterParam)
    (statusFilter : Option StatusFilterParam) : GetUsersResult :=
  ⟨((userService.applyFilters allUsers search tierFilter statusFilter).drop
      ((page - 1) * pageSize)).take pageSize,
   (userService.applyFilters allUsers search tierFilter statusFilter).length,
   decide ((page - 1) * pageSize + pageSize <
     (userService.applyFilters allUsers search tierFilter
       statusFilter).length)⟩

theorem mem_statusFiltered (l : List AdminUser)
    (statusFilter : Option StatusFilterParam) (u : AdminUser)
    (hu : u ∈ userService.statusFiltered l statusFilter) :
    u ∈ l ∧ (∀ st, statusFilter = some (StatusFilterParam.status st) →
      u.status = st) := by
  match statusFilter with
  | none => exact ⟨hu, by intro st h; cases h⟩
  | some .all => exact ⟨hu, by intro st h; cases h⟩
  | some (.status st0) =>
    have h := List.mem_filter.1 hu
    refine ⟨h.1, ?_⟩
    intro st hst
    cases hst
    simpa using h.2

theorem mem_tierFiltered (l : List AdminUser)
    (tierFilter : Option TierFilterParam) (u : AdminUser)
    (hu : u ∈ userService.tierFiltered l tierFilter) :
    u ∈ l ∧ (∀ t, tierFilter = some (TierFilterParam.tier t) →
      u.tier = t) := by
  match tierFilter with
  | none => exact ⟨hu, by intro t h; cases h⟩
  | some .all => exact ⟨hu, by intro t h; cases h⟩
  | some (.tier t0) =>
    have h := List.mem_filter.1 hu
    refine ⟨h.1, ?_⟩
    intro t ht
    cases ht
    simpa using h.2

theorem mem_searchFiltered (allUsers : List AdminUser)
    (search : Option String) (u : AdminUser)
    (hu : u ∈ userService.searchFiltered allUsers search) :
    u ∈ allUsers ∧ (∀ s, search = some s → s ≠ "" → s.trim ≠ "" →
      userService.matchesSearch (s.toLower.trim) u = true) := by
  match search with
  | none => exact ⟨hu, by intro s h; cases h⟩
  | some s0 =>
    simp only [userService.searchFiltered] at hu
    by_cases hc : s0 ≠ "" ∧ s0.trim ≠ ""
    · rw [if_pos hc] at hu
      have h := List.mem_filter.1 hu
      refine ⟨h.1, ?_⟩
      intro s hs _ _
      cases hs
      exact h.2
    · rw [if_neg hc] at hu
      refine ⟨hu, ?_⟩
      intro s hs hs1 hs2
      cases hs
      exact absurd ⟨hs1, hs2⟩ hc

theorem mem_applyFilters (allUsers : List AdminUser) (search : Option String)
    (tierFilter : Option TierFilterParam)
    (statusFilter : Option StatusFilterParam) (u : AdminUser)
    (hu : u ∈ userService.applyFilters allUsers search tierFilter
      statusFilter) :
    u ∈ allUsers ∧
    (∀ s, search = some s → s ≠ "" → s.trim ≠ "" →
      userService.matchesSearch (s.toLower.trim) u = true) ∧
    (∀ t, tierFilter = some (TierFilterParam.tier t) → u.tier = t) ∧
    (∀ st, statusFilter = some (StatusFilterParam.status st) →
      u.status = st) := by
  obtain ⟨hu1, hstat⟩ := mem_statusFiltered _ _ _ hu
  obtain ⟨hu2, htier⟩ := mem_tierFiltered _ _ _ hu1
  obtain ⟨hu3, hsearch⟩ := mem_searchFiltered _ _ _ hu2
  exact ⟨hu3, hsearch, htier, hstat⟩

/-- C10: for `page ≥ 1` (and any `pageSize`), `getUsers` returns at most
`pageSize` rows — precisely the slice of the filtered list starting at
`(page-1)*pageSize` — every returned row passes the supplied search, tier
and status filters, `total` is the number of rows passing those filters, and
`hasMore` holds exactly when `page * pageSize < total`. -/
theorem getUsers_pagination (allUsers : List AdminUser) (page pageSize : Nat)
    (search : Option String) (tierFilter : Option TierFilterParam)
    (statusFilter : Option StatusFilterParam) (hpage : 1 ≤ page) :
    (userService.getUsers allUsers page pageSize search tierFilter
        statusFilter).users.length ≤ pageSize ∧
    (userService.getUsers allUsers page pageSize search tierFilter
        statusFilter).users =
      ((userService.applyFilters allUsers search tierFilter
        statusFilter).drop ((page - 1) * pageSize)).take pageSize ∧
    (∀ u ∈ (userService.getUsers allUsers page pageSize search tierFilter
        statusFilter).users,
      u ∈ allUsers ∧
      (∀ s, search = some s → s ≠ "" → s.trim ≠ "" →
        userService.matchesSearch (s.toLower.trim) u = true) ∧
      (∀ t, tierFilter = some (TierFilterParam.tier t) → u.tier = t) ∧
      (∀ st, statusFilter = some (StatusFilterParam.status st) →
        u.status = st)) ∧
    (userService.getUsers allUsers page pageSize search tierFilter
        statusFilter).total =
      (userService.applyFilters allUsers search tierFilter
        statusFilter).length ∧
    ((userService.getUsers allUsers page pageSize search tierFilter
        statusFilter).hasMore = true ↔
      page * pageSize <
        (userService.getUsers allUsers page pageSize search tierFilter
          statusFilter).total) := by
  obtain ⟨n, rfl⟩ : ∃ n, page = n + 1 :=
    ⟨page - 1, (Nat.succ_pred_eq_of_pos hpage).symm⟩
  refine ⟨?_, rfl, ?_, rfl, ?_⟩
  · exact List.length_take_le pageSize _
  · intro u hu
    have hu2 : u ∈ userService.applyFilters allUsers search tierFilter
        statusFilter :=
      List.mem_of_mem_drop (List.mem_of_mem_take hu)
    exact mem_applyFilters allUsers search tierFilter statusFilter u hu2
  · show (decide ((n + 1 - 1) * pageSize + pageSize < _) = true) ↔ _
    rw [decide_eq_true_iff]
    have harith : (n + 1 - 1) * pageSize + pageSize = (n + 1) * pageSize := by
      simp [Nat.succ_mul]
    rw [harith]
    exact Iff.rfl

/-- Witness for `getUsers_pagination`: page 1, page size 1, a search needle,
tier and status filters, over a two-user collection. -/
theorem getUsers_pagination_witness :
    (userService.getUsers
        [⟨"u1", "Ann Lee", "ann@example.com", UserTier.Pro,
          UserStatus.active⟩,
         ⟨"u2", "Bob Roe", "bob@example.com", UserTier.Core,
          UserStatus.inactive⟩] 1 1 (some "ann")
        (some (TierFilterParam.tier UserTier.Pro))
        (some (StatusFilterParam.status UserStatus.active))).users.length ≤
      1 ∧
    (userService.getUsers
        [⟨"u1", "Ann Lee", "ann@example.com", UserTier.Pro,
          UserStatus.active⟩,
         ⟨"u2", "Bob Roe", "bob@example.com", UserTier.Core,
          UserStatus.inactive⟩] 1 1 (some "ann")
        (some (TierFilterParam.tier UserTier.Pro))
        (some (StatusFilterParam.status UserStatus.active))).users =
      ((userService.applyFilters
        [⟨"u1", "Ann Lee", "ann@example.com", UserTier.Pro,
          UserStatus.active⟩,
         ⟨"u2", "Bob Roe", "bob@example.com", UserTier.Core,
          UserStatus.inactive⟩] (some "ann")
        (some (TierFilterParam.tier UserTier.Pro))
        (some (StatusFilterParam.status UserStatus.active))).drop
          ((1 - 1) * 1)).take 1 ∧
    (∀ u ∈ (userService.getUsers
        [⟨"u1", "Ann Lee", "ann@example.com", UserTier.Pro,
          UserStatus.active⟩,
         ⟨"u2", "Bob Roe", "bob@example.com", UserTier.Core,
          UserStatus.inactive⟩] 1 1 (some "ann")
        (some (TierFilterParam.tier UserTier.Pro))
        (some (StatusFilterParam.status UserStatus.active))).users,
      u ∈ [⟨"u1", "Ann Lee", "ann@example.com", UserTier.Pro,
          UserStatus.active⟩,
         ⟨"u2", "Bob Roe", "bob@example.com", UserTier.Core,
          UserStatus.inactive⟩] ∧
      (∀ s, (some "ann" : Option String) = some s → s ≠ "" → s.trim ≠ "" →
        userService.matchesSearch (s.toLower.trim) u = true) ∧
      (∀ t, (some (TierFilterParam.tier UserTier.Pro) :
          Option TierFilterParam) = some (TierFilterParam.tier t) →
        u.tier = t) ∧
      (∀ st, (some (StatusFilterParam.status UserStatus.active) :
          Option StatusFilterParam) = some (StatusFilterParam.status st) →
        u.status = st)) ∧
    (userService.getUsers
        [⟨"u1", "Ann Lee", "ann@example.com", UserTier.Pro,
          UserStatus.active⟩,
         ⟨"u2", "Bob Roe", "bob@example.com", UserTier.Core,
          UserStatus.inactive⟩] 1 1 (some "ann")
        (some (TierFilterParam.tier UserTier.Pro))
        (some (StatusFilterParam.status UserStatus.active))).total =
      (userService.applyFilters
        [⟨"u1", "Ann Lee", "ann@example.com", UserTier.Pro,
          UserStatus.active⟩,
         ⟨"u2", "Bob Roe", "bob@example.com", UserTier.Core,
          UserStatus.inactive⟩] (some "ann")
        (some (TierFilterParam.tier UserTier.Pro))
        (some (StatusFilterParam.status UserStatus.active))).length ∧
    ((userService.getUsers
        [⟨"u1", "Ann Lee", "ann@example.com", UserTier.Pro,
          UserStatus.active⟩,
         ⟨"u2", "Bob Roe", "bob@example.com", UserTier.Core,
          UserStatus.inactive⟩] 1 1 (some "ann")
        (some (TierFilterParam.tier UserTier.Pro))
        (some (StatusFilterParam.status UserStatus.active))).hasMore = true ↔
      1 * 1 <
        (userService.getUsers
        [⟨"u1", "Ann Lee", "ann@example.com", UserTier.Pro,
          UserStatus.active⟩,
         ⟨"u2", "Bob Roe", "bob@example.com", UserTier.Core,
          UserStatus.inactive⟩] 1 1 (some "ann")
        (some (TierFilterParam.tier UserTier.Pro))
        (some (StatusFilterParam.status UserStatus.active))).total) :=
  getUsers_pagination
    [⟨"u1", "Ann Lee", "ann@example.com", UserTier.Pro, UserStatus.active⟩,
     ⟨"u2", "Bob Roe", "bob@example.com", UserTier.Core,
      UserStatus.inactive⟩] 1 1 (some "ann")
    (some (TierFilterParam.tier UserTier.Pro))
    (some (StatusFilterParam.status UserStatus.active)) (by decide)

/-- The `label.replace(/"/g, '""')` escaping of the dashboard report
(`DashboardPage.tsx`, line 98), on the character list of the label. -/
def escQuotes : List Char → List Char
  | [] => []
  | c :: rest =>
    if c = '"' then '"' :: '"' :: escQuotes rest else c :: escQuotes rest

/-- `String(label).replace(/"/g, '""')` as a string-to-string map. -/
def csvEscape (s : String) : String := String.mk (escQuotes s.data)

/-- One record of the dashboard report's `statsData` array as it reaches the
CSV builder: `value` already carries the `formatNumber` output plus suffix
and `delta` the `toFixed(1)` rendering, both plain strings by then. -/
structure StatRow where
  id : String
  label : String
  value : String
  delta : String
deriving Repr, DecidableEq

/-- One data row of `handleGenerateReport`'s CSV (`DashboardPage.tsx`,
lines 95-103): the five fields joined by commas, with only the label
quote-escaped and wrapped in double quotes. -/
def dashboard.reportRow (range : String) (s : StatRow) : String :=
  s.id ++ "," ++ ("\"" ++ csvEscape s.label ++ "\"") ++ "," ++ s.value ++
    "," ++ s.delta ++ "," ++ range

/-- The header row `["id","label","value","delta","range"].join(",")`. -/
def dashboard.reportHeader : String := "id,label,value,delta,range"

/-- The `rows` array of `handleGenerateReport`. -/
def dashboard.reportRows (range : String) (stats : List StatRow) :
    List String :=
  dashboard.reportHeader :: stats.map (dashboard.reportRow range)

/-- JS `rows.join("\n")`. -/
def joinNl : List String → String
  | [] => ""
  | [r] => r
  | r :: rest => r ++ "\n" ++ joinNl rest

/-- The CSV text of `handleGenerateReport` (line 106). -/
def dashboard.reportCsv (range : String) (stats : List StatRow) : String :=
  joinNl (dashboard.reportRows range stats)

/-- One row of `handleExport`'s analytics CSV (`ExportDataModal.tsx`): a
plain `join(",")` of the four fields with no escaping whatsoever. -/
def analytics.exportRow (dataset id label value : String) : String :=
  dataset ++ "," ++ id ++ "," ++ label ++ "," ++ value

/-- The Content Performance rows of `handleExport` (lines 94-99):
`["content", `article_${idx+1}`, article.title, article.views.toString()]`
joined by commas. -/
def analytics.contentRows (articles : List TopArticle) : List String :=
  articles.enum.map (fun p =>
    analytics.exportRow "content" ("article_" ++ toString (p.1 + 1)) p.2.title
      (toString p.2.views))

/-- Scanner state of a standard (RFC-4180-style, lenient) CSV line parser:
outside any quoted section, inside one, or just past a quote met inside a
quoted section (which an immediately following quote turns into an escaped
literal quote, anything else closes). -/
inductive CsvScanState
  | unquoted
  | quoted
  | quoteInQuoted
deriving Repr, DecidableEq

/-- A standard CSV line parser as a character-at-a-time state machine:
`cur` holds the current field reversed, `fields` the completed fields
reversed.  A doubled quote inside a quoted section is an escaped quote. -/
def parseLineRun : List Char → CsvScanState → List Char → List String →
    List String
  | [], _, cur, fields => (String.mk cur.reverse :: fields).reverse
  | c :: rest, .unquoted, cur, fields =>
    if c = '"' then parseLineRun rest .quoted cur fields
    else if c = ',' then
      parseLineRun rest .unquoted [] (String.mk cur.reverse :: fields)
    else parseLineRun rest .unquoted (c :: cur) fields
  | c :: rest, .quoted, cur, fields =>
    if c = '"' then parseLineRun rest .quoteInQuoted cur fields
    else parseLineRun rest .quoted (c :: cur) fields
  | c :: rest, .quoteInQuoted, cur, fields =>
    if c = '"' then parseLineRun rest .quoted ('"' :: cur) fields
    else if c = ',' then
      parseLineRun rest .unquoted [] (String.mk cur.reverse :: fields)
    else parseLineRun rest .unquoted (c :: cur) fields

/-- Parse one CSV line into its fields. -/
def parseCsvLine (s : String) : List String :=
  parseLineRun s.data CsvScanState.unquoted [] []

/-- Split a character stream at newlines (the line structure a standard CSV
reader gives these files, none of whose quoted fields span lines). -/
def splitLines : List Char → List (List Char)
  | [] => [[]]
  | c :: rest =>
    if c = '\n' then [] :: splitLines rest
    else
      match splitLines rest with
      | [] => [[c]]
      | l :: ls => (c :: l) :: ls

/-- Parse a whole CSV text: split into lines, parse each line's fields. -/
def parseCsv (s : String) : List (List String) :=
  (splitLines s.data).map (fun l => parseLineRun l CsvScanState.unquoted [] [])

/-- C7 counterexample: the analytics export writes `article.title` with no
escaping, so a title containing a comma and a quote produces a row a
standard CSV parser does not read back as the original four fields. -/
theorem analyticsExport_roundTrip_counterexample :
    (',' ∈ "a,\"b".data ∧ '"' ∈ "a,\"b".data) ∧
    analytics.contentRows [⟨"a,\"b", 0⟩] =
      [analytics.exportRow "content" "article_1" "a,\"b" "0"] ∧
    parseCsvLine (analytics.exportRow "content" "article_1" "a,\"b" "0") ≠
      ["content", "article_1", "a,\"b", "0"] := by
  refine ⟨by decide, rfl, by decide⟩

/-- A string free of commas, quotes and newlines: the shape of every
non-label dashboard-report field the round-trip relies on. -/
def plainCsvField (s : String) : Prop :=
  ∀ c ∈ s.data, c ≠ ',' ∧ c ≠ '"' ∧ c ≠ '\n'

/-- A string free of newlines. -/
def noNewline (s : String) : Prop := '\n' ∉ s.data

theorem strMkData (s : String) : String.mk s.data = s := rfl

theorem parseLineRun_plain_comma :
    ∀ (f : List Char), (∀ c ∈ f, c ≠ ',' ∧ c ≠ '"') →
    ∀ (rest : List Char) (cur : List Char) (fields : List String),
      parseLineRun (f ++ ',' :: rest) CsvScanState.unquoted cur fields =
        parseLineRun rest CsvScanState.unquoted []
          (String.mk (cur.reverse ++ f) :: fields) := by
  intro f
  induction f with
  | nil =>
    intro _ rest cur fields
    simp [parseLineRun]
  | cons a f ih =>
    intro hf rest cur fields
    obtain ⟨ha1, ha2⟩ := hf a (List.mem_cons_self a f)
    have hf2 : ∀ c ∈ f, c ≠ ',' ∧ c ≠ '"' :=
      fun c hc => hf c (List.mem_cons_of_mem a hc)
    rw [List.cons_append]
    rw [show parseLineRun (a :: (f ++ ',' :: rest)) CsvScanState.unquoted cur
          fields =
        parseLineRun (f ++ ',' :: rest) CsvScanState.unquoted (a :: cur)
          fields from by simp [parseLineRun, ha1, ha2]]
    rw [ih hf2]
    simp

theorem parseLineRun_plain_end :
    ∀ (f : List Char), (∀ c ∈ f, c ≠ ',' ∧ c ≠ '"') →
    ∀ (cur : List Char) (fields : List String),
      parseLineRun f CsvScanState.unquoted cur fields =
        (String.mk (cur.reverse ++ f) :: fields).reverse := by
  intro f
  induction f with
  | nil =>
    intro _ cur fields
    simp [parseLineRun]
  | cons a f ih =>
    intro hf cur fields
    obtain ⟨ha1, ha2⟩ := hf a (List.mem_cons_self a f)
    have hf2 : ∀ c ∈ f, c ≠ ',' ∧ c ≠ '"' :=
      fun c hc => hf c (List.mem_cons_of_mem a hc)
    rw [show parseLineRun (a :: f) CsvScanState.unquoted cur fields =
        parseLineRun f CsvScanState.unquoted (a :: cur) fields from by
      simp [parseLineRun, ha1, ha2]]
    rw [ih hf2]
    simp

theorem parseLineRun_escQuotes :
    ∀ (l : List Char) (rest : List Char) (cur : List Char)
      (fields : List String),
      parseLineRun (escQuotes l ++ '"' :: rest) CsvScanState.quoted cur
          fields =
        parseLineRun rest CsvScanState.quoteInQuoted (l.reverse ++ cur)
          fields := by
  intro l
  induction l with
  | nil =>
    intro rest cur fields
    simp [escQuotes, parseLineRun]
  | cons c l ih =>
    intro rest cur fields
    by_cases hc : c = '"'
    · subst hc
      rw [show escQuotes ('"' :: l) = '"' :: '"' :: escQuotes l from by
        simp [escQuotes]]
      simp only [List.cons_append]
      rw [show parseLineRun ('"' :: ('"' :: (escQuotes l ++ '"' :: rest)))
            CsvScanState.quoted cur fields =
          parseLineRun (escQuotes l ++ '"' :: rest) CsvScanState.quoted
            ('"' :: cur) fields from by simp [parseLineRun]]
      rw [ih]
      simp
    · rw [show escQuotes (c :: l) = c :: escQuotes l from by
        simp [escQuotes, hc]]
      simp only [List.cons_append]
      rw [show parseLineRun (c :: (escQuotes l ++ '"' :: rest))
            CsvScanState.quoted cur fields =
          parseLineRun (escQuotes l ++ '"' :: rest) CsvScanState.quoted
            (c :: cur) fields from by simp [parseLineRun, hc]]
      rw [ih]
      simp

/-- Parsing one generated dashboard-report row recovers exactly its five
field values, for any label, provided the other four fields contain neither
comma nor quote. -/
theorem parseCsvLine_reportRow (range : String) (s : StatRow)
    (hid : ∀ c ∈ s.id.data, c ≠ ',' ∧ c ≠ '"')
    (hval : ∀ c ∈ s.value.data, c ≠ ',' ∧ c ≠ '"')
    (hdelta : ∀ c ∈ s.delta.data, c ≠ ',' ∧ c ≠ '"')
    (hrange : ∀ c ∈ range.data, c ≠ ',' ∧ c ≠ '"') :
    parseCsvLine (dashboard.reportRow range s) =
      [s.id, s.label, s.value, s.delta, range] := by
  unfold parseCsvLine dashboard.reportRow
  have hdata : (s.id ++ "," ++ ("\"" ++ csvEscape s.label ++ "\"") ++ "," ++
      s.value ++ "," ++ s.delta ++ "," ++ range).data =
      s.id.data ++ ',' :: ('"' :: (escQuotes s.label.data ++
        '"' :: (',' :: (s.value.data ++
          ',' :: (s.delta.data ++ ',' :: range.data))))) := by
    simp [csvEscape]
  rw [hdata, parseLineRun_plain_comma s.id.data hid]
  rw [show parseLineRun ('"' :: (escQuotes s.label.data ++
        '"' :: (',' :: (s.value.data ++
          ',' :: (s.delta.data ++ ',' :: range.data)))))
        CsvScanState.unquoted []
        [String.mk (List.reverse [] ++ s.id.data)] =
      parseLineRun (escQuotes s.label.data ++
        '"' :: (',' :: (s.value.data ++
          ',' :: (s.delta.data ++ ',' :: range.data))))
        CsvScanState.quoted []
        [String.mk (List.reverse [] ++ s.id.data)] from by
    simp [parseLineRun]]
  rw [parseLineRun_escQuotes]
  rw [show parseLineRun (',' :: (s.value.data ++
        ',' :: (s.delta.data ++ ',' :: range.data)))
        CsvScanState.quoteInQuoted (s.label.data.reverse ++ [])
        [String.mk (List.reverse [] ++ s.id.data)] =
      parseLineRun (s.value.data ++ ',' :: (s.delta.data ++
          ',' :: range.data))
        CsvScanState.unquoted []
        [String.mk (s.label.data.reverse ++ []).reverse,
         String.mk (List.reverse [] ++ s.id.data)] from by
    simp [parseLineRun]]
  rw [parseLineRun_plain_comma s.value.data hval]
  rw [parseLineRun_plain_comma s.delta.data hdelta]
  rw [parseLineRun_plain_end range.data hrange]
  simp [strMkData]

theorem mem_escQuotes :
    ∀ (l : List Char) (c : Char), c ∈ escQuotes l → c ∈ l ∨ c = '"' := by
  intro l
  induction l with
  | nil => intro c hc; cases hc
  | cons a l ih =>
    intro c hc
    by_cases ha : a = '"'
    · subst ha
      rw [show escQuotes ('"' :: l) = '"' :: '"' :: escQuotes l from by
        simp [escQuotes]] at hc
      rcases List.mem_cons.1 hc with rfl | hc2
      · exact Or.inr rfl
      · rcases List.mem_cons.1 hc2 with rfl | hc3
        · exact Or.inr rfl
        · rcases ih c hc3 with h | h
          · exact Or.inl (List.mem_cons_of_mem _ h)
          · exact Or.inr h
    · rw [show escQuotes (a :: l) = a :: escQuotes l from by
        simp [escQuotes, ha]] at hc
      rcases List.mem_cons.1 hc with rfl | hc2
      · exact Or.inl (List.mem_cons_self _ _)
      · rcases ih c hc2 with h | h
        · exact Or.inl (List.mem_cons_of_mem _ h)
        · exact Or.inr h

theorem splitLines_no_nl :
    ∀ (cs : List Char), '\n' ∉ cs → splitLines cs = [cs] := by
  intro cs
  induction cs with
  | nil => intro _; rfl
  | cons c rest ih =>
    intro h
    have hc : c ≠ '\n' := fun hc => h (hc ▸ List.mem_cons_self c rest)
    have hrest : '\n' ∉ rest := fun hr => h (List.mem_cons_of_mem c hr)
    simp [splitLines, hc, ih hrest]

theorem splitLines_append_nl :
    ∀ (r cs : List Char), '\n' ∉ r →
      splitLines (r ++ '\n' :: cs) = r :: splitLines cs := by
  intro r
  induction r with
  | nil => intro cs _; simp [splitLines]
  | cons c r ih =>
    intro cs h
    have hc : c ≠ '\n' := fun hc => h (hc ▸ List.mem_cons_self c r)
    have hr : '\n' ∉ r := fun hr => h (List.mem_cons_of_mem c hr)
    rw [List.cons_append]
    simp [splitLines, hc, ih cs hr]

theorem joinNl_data_splitLines :
    ∀ (rows : List String), rows ≠ [] → (∀ r ∈ rows, '\n' ∉ r.data) →
      splitLines (joinNl rows).data = rows.map String.data := by
  intro rows
  induction rows with
  | nil => intro h; exact absurd rfl h
  | cons r rest ih =>
    intro _ hnl
    cases rest with
    | nil =>
      rw [show joinNl [r] = r from rfl]
      rw [splitLines_no_nl r.data (hnl r (List.mem_cons_self r []))]
      rfl
    | cons r2 rest2 =>
      rw [show joinNl (r :: r2 :: rest2) = r ++ "\n" ++ joinNl (r2 :: rest2)
        from rfl]
      have hdata : (r ++ "\n" ++ joinNl (r2 :: rest2)).data =
          r.data ++ '\n' :: (joinNl (r2 :: rest2)).data := by simp
      rw [hdata,
        splitLines_append_nl r.data _ (hnl r (List.mem_cons_self r _))]
      rw [ih (by simp) (fun x hx => hnl x (List.mem_cons_of_mem r hx))]
      rfl

theorem reportRow_no_nl (range : String) (s : StatRow)
    (hid : plainCsvField s.id) (hval : plainCsvField s.value)
    (hdelta : plainCsvField s.delta) (hlabel : noNewline s.label)
    (hrange : plainCsvField range) :
    '\n' ∉ (dashboard.reportRow range s).data := by
  intro hmem
  have hdata : (dashboard.reportRow range s).data =
      s.id.data ++ ',' :: ('"' :: (escQuotes s.label.data ++
        '"' :: (',' :: (s.value.data ++
          ',' :: (s.delta.data ++ ',' :: range.data))))) := by
    unfold dashboard.reportRow
    simp [csvEscape]
  rw [hdata] at hmem
  simp only [List.mem_append, List.mem_cons] at hmem
  rcases hmem with h | h | h | h | h | h | h | h | h | h | h <;>
    first
      | exact (hid _ h).2.2 rfl
      | exact (hval _ h).2.2 rfl
      | exact (hdelta _ h).2.2 rfl
      | exact (hrange _ h).2.2 rfl
      | exact absurd h (by decide)
      | exact (by
          rcases mem_escQuotes _ _ h with h2 | h2
          · exact absurd h2 hlabel
          · exact absurd h2 (by decide))

/-- C7 (amended): the dashboard report CSV round-trips — a standard CSV
parser recovers the header and every record's exact field values, for
arbitrary label content (commas and quotes included, escaped by the
generator) — provided the un-escaped fields (`id`, `value`, `delta`,
`range`) contain no comma, quote or newline and labels no newline.  The
analytics export escapes nothing, so it does not round-trip (see the
counterexample). -/
theorem dashboardReport_roundTrip (range : String) (stats : List StatRow)
    (hplain : ∀ s ∈ stats, plainCsvField s.id ∧ plainCsvField s.value ∧
      plainCsvField s.delta ∧ noNewline s.label)
    (hrange : plainCsvField range) :
    parseCsv (dashboard.reportCsv range stats) =
      ["id", "label", "value", "delta", "range"] ::
        stats.map (fun s => [s.id, s.label, s.value, s.delta, range]) := by
  unfold parseCsv dashboard.reportCsv
  have hrows_nl : ∀ r ∈ dashboard.reportRows range stats, '\n' ∉ r.data := by
    intro r hr
    rcases List.mem_cons.1 hr with rfl | hr2
    · decide
    · obtain ⟨s, hs, rfl⟩ := List.mem_map.1 hr2
      obtain ⟨h1, h2, h3, h4⟩ := hplain s hs
      exact reportRow_no_nl range s h1 h2 h3 h4 hrange
  rw [joinNl_data_splitLines _ (by simp [dashboard.reportRows]) hrows_nl]
  have hdatarows : (dashboard.reportRows range stats).map String.data =
      dashboard.reportHeader.data ::
        stats.map (fun s => (dashboard.reportRow range s).data) := by
    simp [dashboard.reportRows]
  rw [hdatarows]
  have hhead : parseLineRun dashboard.reportHeader.data
      CsvScanState.unquoted [] [] =
      ["id", "label", "value", "delta", "range"] := by decide
  have htail : List.map (fun l => parseLineRun l CsvScanState.unquoted [] [])
      (stats.map (fun s => (dashboard.reportRow range s).data)) =
      stats.map (fun s => [s.id, s.label, s.value, s.delta, range]) := by
    rw [List.map_map]
    apply List.map_congr_left
    intro s hs
    obtain ⟨h1, h2, h3, h4⟩ := hplain s hs
    have hplain1 : ∀ c ∈ s.id.data, c ≠ ',' ∧ c ≠ '"' :=
      fun c hc => ⟨(h1 c hc).1, (h1 c hc).2.1⟩
    have hplain2 : ∀ c ∈ s.value.data, c ≠ ',' ∧ c ≠ '"' :=
      fun c hc => ⟨(h2 c hc).1, (h2 c hc).2.1⟩
    have hplain3 : ∀ c ∈ s.delta.data, c ≠ ',' ∧ c ≠ '"' :=
      fun c hc => ⟨(h3 c hc).1, (h3 c hc).2.1⟩
    have hplain4 : ∀ c ∈ range.data, c ≠ ',' ∧ c ≠ '"' :=
      fun c hc => ⟨(hrange c hc).1, (hrange c hc).2.1⟩
    exact parseCsvLine_reportRow range s hplain1 hplain2 hplain3 hplain4
  simp only [List.map_cons]
  rw [hhead, htail]

/-- Witness for `dashboardReport_roundTrip`: one record whose label contains
both a comma and a quote. -/
theorem dashboardReport_roundTrip_witness :
    parseCsv (dashboard.reportCsv "last_7_days"
      [⟨"total_users", "He said \"hi\", ok", "1420", "12.0"⟩]) =
      ["id", "label", "value", "delta", "range"] ::
        ([⟨"total_users", "He said \"hi\", ok", "1420", "12.0"⟩] :
          List StatRow).map
          (fun s => [s.id, s.label, s.value, s.delta, "last_7_days"]) :=
  dashboardReport_roundTrip "last_7_days"
    [⟨"total_users", "He said \"hi\", ok", "1420", "12.0"⟩]
    (by
      intro s hs
      rcases List.mem_cons.1 hs with rfl | h
      · refine ⟨?_, ?_, ?_, ?_⟩ <;>
          first
            | (unfold plainCsvField; decide)
            | (unfold noNewline; decide)
      · cases h)
    (by unfold plainCsvField; decide)

end CreditPathway
